import Mathlib

/-!
Shallow embedding of the staged record pipeline of
`lightweight-etl-pipeline-to-gcp`: the validation engine
(`src/data_processing/data_validator.py`), the masking engine
(`src/data_processing/data_masking.py`), the settings check
(`src/config/settings.py`), the artifact write
(`src/storage/gcs_uploader.py`) and the orchestrator
(`src/orchestration/pipeline_runner.py`), together with theorems that
settle the specification claims against these definitions.
-/

namespace ETL

/-- A scalar cell value as it appears in a pandas `DataFrame` handed around
by the pipeline: Python `None`/`NaN`, a string, a number (salaries are the
only numeric field the model constrains; we embed numbers as integers),
a boolean, a calendar date, or a timestamp. -/
inductive PyValue where
  | null
  | str (s : String)
  | int (n : Int)
  | bool (b : Bool)
  | date (y m d : Nat)
  | timestamp (t : Nat)
  deriving DecidableEq, Repr

/-- Python `str(value)` for the cell values above (`None` prints as `None`,
`True`/`False` capitalised). -/
def PyValue.pyStr : PyValue → String
  | .null => "None"
  | .str s => s
  | .int n => toString n
  | .bool b => if b then "True" else "False"
  | .date y m d => toString y ++ "-" ++ toString m ++ "-" ++ toString d
  | .timestamp t => toString t

/-- `pd.isna(value)`: true exactly on the null/NaN cell. -/
def PyValue.isna : PyValue → Bool
  | .null => true
  | _ => false

/-- `value == something-empty`: the guard `value == ''` used by the masker. -/
def PyValue.isEmptyStr : PyValue → Bool
  | .str s => s == ""
  | _ => false

/-- Python slice `s[:n]`. -/
def strTake (s : String) (n : Nat) : String := ⟨s.toList.take n⟩

/-- Python `s.upper()` (ASCII data). -/
def strUpper (s : String) : String := ⟨s.toList.map Char.toUpper⟩

/-- Python `s.strip()`: drop leading and trailing whitespace. -/
def pyStrip (s : String) : String :=
  ⟨((s.toList.dropWhile Char.isWhitespace).reverse.dropWhile
      Char.isWhitespace).reverse⟩

/-- Split a character list at the first occurrence of `ch`: `some (before,
after)` when the character occurs. Models Python `split(ch, 1)`. -/
def breakAtChar (ch : Char) : List Char → Option (List Char × List Char)
  | [] => none
  | c :: rest =>
    if c == ch then some ([], rest)
    else
      match breakAtChar ch rest with
      | none => none
      | some p => some (c :: p.1, p.2)

/-- Equality of `Except` values is decidable componentwise. -/
instance {ε α : Type} [DecidableEq ε] [DecidableEq α] : DecidableEq (Except ε α) :=
  fun a b =>
    match a, b with
    | .ok x, .ok y => if h : x = y then .isTrue (by rw [h]) else
        .isFalse (by intro hc; cases hc; exact h rfl)
    | .error x, .error y => if h : x = y then .isTrue (by rw [h]) else
        .isFalse (by intro hc; cases hc; exact h rfl)
    | .ok _, .error _ => .isFalse (by intro hc; cases hc)
    | .error _, .ok _ => .isFalse (by intro hc; cases hc)

/-! ## Calendar dates (model of `pd.to_datetime` on ISO strings) -/

/-- Gregorian leap-year test. -/
def isLeapYear (y : Nat) : Bool :=
  (y % 4 == 0 && y % 100 != 0) || y % 400 == 0

/-- Days in a month of a given year. -/
def daysInMonth (y m : Nat) : Nat :=
  if m == 2 then (if isLeapYear y then 29 else 28)
  else if m == 4 || m == 6 || m == 9 || m == 11 then 30
  else 31

/-- A calendar date `(year, month, day)`. -/
structure Date where
  year : Nat
  month : Nat
  day : Nat
  deriving DecidableEq, Repr

/-- Strict chronological order on dates (lexicographic on year, month, day). -/
def Date.lt (a b : Date) : Bool :=
  a.year < b.year ||
  (a.year == b.year && (a.month < b.month ||
    (a.month == b.month && a.day < b.day)))

/-- Model of `pd.to_datetime` applied to a string, restricted to the
ISO `YYYY-MM-DD` shape the pipeline's data uses: parses the three numeric
components and rejects impossible calendar dates (pandas raises on
`2023-02-31`). Returns `none` where pandas raises. -/
def parseDate (s : String) : Option Date :=
  match s.toList with
  | [y1, y2, y3, y4, h1, m1, m2, h2, d1, d2] =>
    if h1 == '-' && h2 == '-' &&
       [y1, y2, y3, y4, m1, m2, d1, d2].all Char.isDigit then
      let y := ((y1.toNat - 48) * 1000 + (y2.toNat - 48) * 100 +
                (y3.toNat - 48) * 10 + (y4.toNat - 48))
      let m := (m1.toNat - 48) * 10 + (m2.toNat - 48)
      let d := (d1.toNat - 48) * 10 + (d2.toNat - 48)
      if 1 ≤ m && m ≤ 12 && 1 ≤ d && d ≤ daysInMonth y m then
        some ⟨y, m, d⟩
      else none
    else none
  | _ => none

/-! ## Email pattern (model of `re.match` with the validator's regex)

The regex in `EmployeeModel.validate_email` is
`^[a-zA-Z0-9._%+-]+@[a-zA-Z0-9.-]+\.[a-zA-Z]\x7b2,\x7d$`.
Neither character class contains `@`, so a matching string has exactly one
`@`; the part before it is a nonempty run of local-part characters and the
part after it decomposes at some `.` into a nonempty run of domain
characters followed by at least two letters. -/

/-- Characters allowed in the local part of the email regex. -/
def isEmailLocalChar (c : Char) : Bool :=
  c.isAlpha || c.isDigit || c == '.' || c == '_' || c == '%' || c == '+' || c == '-'

/-- Characters allowed in the domain run of the email regex. -/
def isEmailDomainChar (c : Char) : Bool :=
  c.isAlpha || c.isDigit || c == '.' || c == '-'

/-- Does the part after `@` match `[a-zA-Z0-9.-]+\.[a-zA-Z]\x7b2,\x7d`?
Tries every position of the final dot. -/
def emailDomainOk (cs : List Char) : Bool :=
  (List.range cs.length).any fun p =>
    cs.getD p ' ' == '.' && 1 ≤ p && (cs.take p).all isEmailDomainChar &&
      2 ≤ (cs.drop (p + 1)).length && (cs.drop (p + 1)).all Char.isAlpha

/-- Model of the validator's email regex test: exactly one `@` (neither
class admits it), a nonempty local part over the local class, and a
matching domain tail. -/
def emailFormatOk (s : String) : Bool :=
  match breakAtChar '@' s.toList with
  | some (localPart, domainPart) =>
    !localPart.isEmpty && localPart.all isEmailLocalChar &&
      !domainPart.contains '@' && emailDomainOk domainPart
  | none => false

/-! ## `EmployeeModel` (pydantic v2 model, `extra='forbid'`) -/

/-- One entry of `EmployeeModel.model_fields`: its name, pydantic's
`is_required()` flag, and whether its declared default is `None`
(required fields have the undefined-default sentinel, not `None`). -/
structure FieldInfo where
  name : String
  isRequired : Bool
  defaultIsNone : Bool
  deriving DecidableEq, Repr

/-- `EmployeeModel.model_fields` in declaration order: eight required
fields (`Field(...)` or bare annotations, default undefined) followed by
nine optionals defaulted to `None`. -/
def modelFields : List FieldInfo :=
  [⟨"employee_id", true, false⟩,
   ⟨"first_name", true, false⟩,
   ⟨"last_name", true, false⟩,
   ⟨"email", true, false⟩,
   ⟨"department", true, false⟩,
   ⟨"position", true, false⟩,
   ⟨"hire_date", true, false⟩,
   ⟨"data_source", true, false⟩,
   ⟨"phone", false, true⟩,
   ⟨"ssn", false, true⟩,
   ⟨"salary", false, true⟩,
   ⟨"street_address", false, true⟩,
   ⟨"city", false, true⟩,
   ⟨"state", false, true⟩,
   ⟨"zip_code", false, true⟩,
   ⟨"manager_id", false, true⟩,
   ⟨"performance_rating", false, true⟩]

/-- The field names of `EmployeeModel`. -/
def modelFieldNames : List String := modelFields.map (·.name)

/-- Dictionary lookup (`dict.get(name)`): the first binding of `name`. -/
def lookupField (dict : List (String × PyValue)) (name : String) : Option PyValue :=
  (dict.find? (fun p => p.1 == name)).map (·.2)

/-- Constraint check for a required `str` field with pydantic
`min_length`/`max_length` bounds: a non-string input is a type error,
otherwise each violated bound is one error. -/
def checkStrLen (lo hi : Nat) (v : PyValue) : List String :=
  match v with
  | .str s =>
    (if s.length < lo then
      ["String should have at least " ++ toString lo ++ " characters"] else []) ++
    (if hi < s.length then
      ["String should have at most " ++ toString hi ++ " characters"] else [])
  | _ => ["Input should be a valid string"]

/-- Constraint check for a bare required `str` field. -/
def checkStr (v : PyValue) : List String :=
  match v with
  | .str _ => []
  | _ => ["Input should be a valid string"]

/-- Constraint check for an `Optional[str]` field (`None` allowed). -/
def checkOptStr (v : PyValue) : List String :=
  match v with
  | .null => []
  | .str _ => []
  | _ => ["Input should be a valid string"]

/-- Constraint check for `salary: Optional[float] = Field(None, ge=0)`. -/
def checkSalary (v : PyValue) : List String :=
  match v with
  | .null => []
  | .int n => if n < 0 then ["Input should be greater than or equal to 0"] else []
  | _ => ["Input should be a valid number"]

/-- `EmployeeModel.validate_email`: the string must match the email regex
(the validator then lowercases and strips, which does not affect
acceptance). -/
def checkEmail (v : PyValue) : List String :=
  match v with
  | .str s =>
    if emailFormatOk s then []
    else ["Value error, Formato de e-mail invalido"]
  | _ => ["Input should be a valid string"]

/-- `EmployeeModel.validate_hire_date`: the string must be accepted by
`pd.to_datetime`; the current time plays no part in the check. -/
def checkHireDate (v : PyValue) : List String :=
  match v with
  | .str s =>
    match parseDate s with
    | some _ => []
    | none => ["Value error, Data invalida"]
  | _ => ["Input should be a valid string"]

/-- The declared per-field validation of `EmployeeModel`, given the value
bound to the field in the record dict (or `none` when the key is absent):
a missing required field is a `Field required` error, a missing optional
field takes its `None` default. -/
def checkField (name : String) (v : Option PyValue) : List String :=
  match v with
  | none =>
    if (modelFields.find? (fun f => f.name == name)).any (·.isRequired) then
      [name ++ ": Field required"]
    else []
  | some w =>
    (if name == "employee_id" then checkStrLen 6 10 w
     else if name == "first_name" then checkStrLen 2 50 w
     else if name == "last_name" then checkStrLen 2 50 w
     else if name == "email" then checkEmail w
     else if name == "hire_date" then checkHireDate w
     else if name == "department" || name == "position" || name == "data_source" then
       checkStr w
     else if name == "salary" then checkSalary w
     else checkOptStr w).map (fun e => name ++ ": " ++ e)

/-- `EmployeeModel.model_validate(dict)`: collects the per-field errors in
field order, then one error per extra key (`extra='forbid'`). An empty
result means the record validated. -/
def model_validate (dict : List (String × PyValue)) : List String :=
  (modelFields.flatMap fun f => checkField f.name (lookupField dict f.name)) ++
    ((dict.filter (fun p => !modelFieldNames.contains p.1)).map
      (fun p => p.1 ++ ": Extra inputs are not permitted"))

/-- Rendering of the pydantic `ValidationError` raised for a record, as it
reaches `str(e)` in `validate_dataframe`: the collected messages. -/
def renderErrors (errs : List String) : String :=
  String.intercalate "; " errs

/-! ## `DataFrame` -/

/-- A pandas `DataFrame` as the pipeline uses it: a column list and rows,
each row an association list from column name to cell value (what
`record.to_dict()` yields in `validate_dataframe`). -/
structure DataFrame where
  cols : List String
  rows : List (List (String × PyValue))
  deriving DecidableEq, Repr

/-- `df.empty`: true when either axis has length zero. -/
def DataFrame.empty (df : DataFrame) : Bool :=
  df.rows.isEmpty || df.cols.isEmpty

/-- The column `c` of the frame as a list of cell values
(`df[c]`; a row without the binding reads as NaN). -/
def DataFrame.col (df : DataFrame) (c : String) : List PyValue :=
  df.rows.map (fun r => (lookupField r c).getD .null)

/-- `df[c].duplicated().sum()`: the number of occurrences that repeat an
earlier value in the column. -/
def dupCount (l : List PyValue) : Nat :=
  (go [] l).length
where
  go (seen : List PyValue) : List PyValue → List PyValue
    | [] => []
    | v :: rest =>
      (if seen.contains v then [v] else []) ++ go (v :: seen) rest

/-- Python `repr` of a list of strings, as interpolated into the
missing-columns message. -/
def pyListRepr (l : List String) : String :=
  let q := String.singleton (Char.ofNat 39)
  "[" ++ String.intercalate ", " (l.map (fun s => q ++ s ++ q)) ++ "]"

/-! ## `DataValidator` -/

/-- `DataValidator.__init__`: the list the code builds with
`[name for name, field in EmployeeModel.model_fields.items()
  if not field.is_required() or field.default is None]`.
For a required field both disjuncts are false (its default is the
undefined sentinel, not `None`); for an optional field both are true —
so the comprehension collects exactly the optional fields. -/
def DataValidator.required_fields : List String :=
  (modelFields.filter (fun f => !f.isRequired || f.defaultIsNone)).map (·.name)

/-- `DataValidator.validate_dataframe`: empty-frame guard, missing-columns
guard over `required_fields`, then per-record pydantic validation
(collecting `Linha i: ...` issues) and the duplicate-`employee_id` scan. -/
def validate_dataframe (df : DataFrame) : Bool × List String :=
  if df.empty then (false, ["DataFrame vazio"])
  else
    let missing_cols := DataValidator.required_fields.filter
      (fun col => !df.cols.contains col)
    if !missing_cols.isEmpty then
      (false, ["Colunas obrigatorias faltando: " ++ pyListRepr missing_cols])
    else
      let rowIssues := df.rows.enum.filterMap fun p =>
        match model_validate p.2 with
        | [] => none
        | errs => some ("Linha " ++ toString (p.1 + 1) ++ ": " ++ renderErrors errs)
      let dups := dupCount (df.col "employee_id")
      let dupIssues :=
        if df.cols.contains "employee_id" && decide (0 < dups) then
          ["IDs duplicados encontrados: " ++ toString dups ++ " casos"]
        else []
      let validation_issues := rowIssues ++ dupIssues
      if validation_issues.isEmpty then (true, [])
      else (false, validation_issues)

/-! ## Column assignment on frames -/

/-- Assign value `v` to key `c` in a row: update the binding in place when
present, append it otherwise (a pandas column assignment gives every row a
cell for the column). -/
def setRowVal (r : List (String × PyValue)) (c : String) (v : PyValue) :
    List (String × PyValue) :=
  if r.any (fun p => p.1 == c) then
    r.map (fun p => if p.1 == c then (c, v) else p)
  else r ++ [(c, v)]

/-- `df[c] = df[c].apply(f)`: rewrite column `c` cell-wise (a missing
binding reads as NaN), adding the column to the header if absent. -/
def DataFrame.setColWith (df : DataFrame) (c : String) (f : PyValue → PyValue) :
    DataFrame :=
  ⟨if df.cols.contains c then df.cols else df.cols ++ [c],
   df.rows.map (fun r => setRowVal r c (f ((lookupField r c).getD .null)))⟩

/-- `df[c] = v`: broadcast a scalar into (possibly new) column `c`. -/
def DataFrame.setColScalar (df : DataFrame) (c : String) (v : PyValue) : DataFrame :=
  df.setColWith c (fun _ => v)

/-! ## `DataMasker`

`hashlib.sha256(...).hexdigest()` is an external, fixed pure function of
the input bytes; the embedding abstracts it as a parameter
`hashHex : String → String` so every theorem quantifies over it. -/

/-- The constructor default `salt="etl_pipeline_salt"`. -/
def defaultSalt : String := "etl_pipeline_salt"

/-- `DataMasker._tokenize_field`: null/empty values pass through; otherwise
hash `salt_fieldName_str(value)` and return `TOKEN_` plus the uppercased
first eight hex digits. -/
def tokenize_field (hashHex : String → String) (salt : String)
    (value : PyValue) (fieldName : String) : PyValue :=
  if value.isna || value.isEmptyStr then value
  else
    let hash_input := salt ++ "_" ++ fieldName ++ "_" ++ value.pyStr
    let hash_value := hashHex hash_input
    .str ("TOKEN_" ++ strUpper (strTake hash_value 8))

/-- `DataMasker._mask_email`: tokenize the part before the first `@`, keep
the rest verbatim; null, empty, or `@`-less values pass through.
(Non-string cells only reach this function as nulls in an email column.) -/
def mask_email (hashHex : String → String) (salt : String) (email : PyValue) :
    PyValue :=
  match email with
  | .str s =>
    if s == "" || !s.toList.contains '@' then email
    else
      match breakAtChar '@' s.toList with
      | some (localPart, domain) =>
        let tokenizedLocal := tokenize_field hashHex salt (.str ⟨localPart⟩) "email"
        .str (tokenizedLocal.pyStr ++ "@" ++ ⟨domain⟩)
      | none => email
  | _ => email

/-- `DataMasker._mask_phone`: with at least ten digits, expose the last
four behind a fixed display pattern (the code also tokenizes the leading
digits, unused in the display value); with fewer, tokenize the whole
value. Null/empty values pass through. -/
def mask_phone (hashHex : String → String) (salt : String) (phone : PyValue) :
    PyValue :=
  if phone.isna || phone.isEmptyStr then phone
  else
    let digits := phone.pyStr.toList.filter Char.isDigit
    if 10 ≤ digits.length then
      let _tokenized := tokenize_field hashHex salt
        (.str (String.mk (digits.take (digits.length - 4)))) "phone"
      .str ("***-***-" ++ String.mk (digits.drop (digits.length - 4)))
    else tokenize_field hashHex salt phone "phone"

/-- The masker's `sensitive_fields` dict in insertion order (note
`street_address` tokenizes under the field name `address`). -/
def sensitiveFields (hashHex : String → String) (salt : String) :
    List (String × (PyValue → PyValue)) :=
  [("ssn", fun x => tokenize_field hashHex salt x "ssn"),
   ("salary", fun x => tokenize_field hashHex salt x "salary"),
   ("email", mask_email hashHex salt),
   ("phone", mask_phone hashHex salt),
   ("street_address", fun x => tokenize_field hashHex salt x "address")]

/-- `DataMasker.mask_sensitive_data`: an empty frame is returned as-is;
otherwise each sensitive field present in the copy is masked cell-wise and
the provenance columns `masked_at` (the wall clock `now`, passed
explicitly) and `is_masked` are stamped on every row. -/
def mask_sensitive_data (hashHex : String → String) (salt : String) (now : Nat)
    (df : DataFrame) : DataFrame :=
  if df.empty then df
  else
    let df_masked := (sensitiveFields hashHex salt).foldl
      (fun acc p => if acc.cols.contains p.1 then acc.setColWith p.1 p.2 else acc) df
    (df_masked.setColScalar "masked_at" (.timestamp now)).setColScalar
      "is_masked" (.bool true)

/-! ## Python-level errors -/

/-- The Python exceptions the embedded code can raise. -/
inductive PyErr where
  | attributeError (name : String)
  | valueError (msg : String)
  | keyError (name : String)
  | assertionError (msg : String)
  deriving DecidableEq, Repr

/-! ## `Settings` (`src/config/settings.py`) -/

/-- A process environment: what `os.getenv` reads. -/
def Env : Type := String → Option String

/-- The class attributes the `Settings` class actually defines, with their
values under environment `env` (`CHUNK_SIZE` and `MAX_RETRIES` are also
defined but are integers never consulted by `validate_settings`). -/
def settingsAttrs (env : Env) : List (String × Option String) :=
  [("GOOGLE_APPLICATION_CREDENTIALS", env "GOOGLE_APPLICATION_CREDENTIALS"),
   ("GCS_BUCKET", env "GCS_BUCKET"),
   ("BIGQUERY_PROJECT_ID", env "BIGQUERY_PROJECT_ID"),
   ("BIGQUERY_DATASET_ID", env "BIGQUERY_DATASET_ID"),
   ("BIGQUERY_TABLE_ID", env "BIGQUERY_TABLE_ID")]

/-- `getattr(cls, name)`: the attribute's value, or `AttributeError` when
the class does not define it. -/
def getattrSetting (env : Env) (name : String) : Except PyErr (Option String) :=
  match (settingsAttrs env).find? (fun p => p.1 == name) with
  | some p => .ok p.2
  | none => .error (.attributeError name)

/-- Python truthiness of an `os.getenv` result: unset or empty is falsy. -/
def isFalsySetting : Option String → Bool
  | none => true
  | some s => s.isEmpty

/-- The `required_settings` list inside `Settings.validate_settings`. -/
def required_settings : List String :=
  ["GOOGLE_APPLICATION_CREDENTIALS",
   "GCS_BUCKET_RAW",
   "GCS_BUCKET_PROCESSED",
   "BIGQUERY_PROJECT_ID",
   "BIGQUERY_DATASET_ID",
   "BIGQUERY_TABLE_ID"]

/-- `Settings.validate_settings`: evaluate `getattr` over
`required_settings` in order (an `AttributeError` escapes immediately),
collect the falsy ones, and raise `ValueError` if any were collected. -/
def validate_settings (env : Env) : Except PyErr Unit := do
  let missing ← required_settings.foldlM
    (fun acc name => do
      let v ← getattrSetting env name
      pure (if isFalsySetting v then acc ++ [name] else acc))
    ([] : List String)
  if !missing.isEmpty then
    throw (.valueError ("Missing required settings: " ++
      String.intercalate ", " missing))
  else pure ()

/-! ## `GCSUploader.upload_data` (`src/storage/gcs_uploader.py`)

The byte upload to the bucket is the external store client and always
succeeds in the model; the embedding covers the data transformations the
method performs before uploading and returns the generated filename
together with the frame exactly as persisted. -/

/-- `pd.to_datetime` then `.dt.date` on one cell: ISO strings parse to
dates (or raise), dates stay, NaN stays NaT; anything else raises. -/
def toDateCell : PyValue → Except PyErr PyValue
  | .null => .ok .null
  | .str s =>
    match parseDate s with
    | some d => .ok (.date d.year d.month d.day)
    | none => .error (.valueError ("Data invalida: " ++ s))
  | .date y m d => .ok (.date y m d)
  | _ => .error (.valueError "Data invalida")

/-- Convert the `hire_date` column of every row, propagating the first
parse failure. -/
def convertHireDates (df : DataFrame) : Except PyErr DataFrame := do
  let rows ← df.rows.mapM (fun r => r.mapM (fun p =>
    if p.1 == "hire_date" then do
      let v ← toDateCell p.2
      pure (p.1, v)
    else pure p))
  pure ⟨df.cols, rows⟩

/-- `fillna("").astype(str)` on one cell. -/
def fillnaStr : PyValue → String
  | .null => ""
  | v => v.pyStr

/-- The four identity columns BigQuery requires to be non-null. -/
def uploaderRequiredFields : List String :=
  ["employee_id", "first_name", "last_name", "email"]

/-- Count of nulls over the given columns (`df[cols].isnull().sum().sum()`). -/
def nullCount (df : DataFrame) (colNames : List String) : Nat :=
  (colNames.map (fun c => ((df.col c).filter (fun v => v.isna)).length)).sum

/-- One step of the identity-field cleanup loop in
`GCSUploader.upload_data`: if the column is present, blank-fill, stringify
and strip it, then drop the rows where it came out empty. -/
def cleanIdentityColStep (acc : DataFrame) (col : String) : DataFrame :=
  if acc.cols.contains col then
    let acc2 := acc.setColWith col (fun v => .str (pyStrip (fillnaStr v)))
    ⟨acc2.cols, acc2.rows.filter
      (fun r => (lookupField r col).getD .null != .str "")⟩
  else acc

/-- The tail of `upload_data` after the cleanup: the `KeyError` a missing
identity column raises at the `df[required_fields]` indexing, the
null-check assertion, and the timestamped filename of the persisted
object. -/
def finalizeUpload (nowName data_type source_name : String) (df : DataFrame) :
    Except PyErr (String × DataFrame) :=
  match uploaderRequiredFields.find? (fun col => !df.cols.contains col) with
  | some col => .error (.keyError col)
  | none =>
    if nullCount df uploaderRequiredFields != 0 then
      .error (.assertionError "Ainda ha nulos em campos obrigatorios")
    else
      .ok (data_type ++ "/" ++ source_name ++ "_" ++ nowName ++ ".parquet", df)

/-- `GCSUploader.upload_data`: cast `zip_code` for the csv source, convert
`hire_date` to dates, blank-fill and strip each identity column present and
drop its blank rows, assert no nulls remain in the identity columns
(`KeyError` if one is missing entirely), then persist under the
timestamped name. Returns the filename and the persisted frame. -/
def upload_data (nowName : String) (dfIn : DataFrame) (data_type : String)
    (source_name : String) : Except PyErr (String × DataFrame) := do
  let df :=
    if source_name == "csv" && dfIn.cols.contains "zip_code" then
      dfIn.setColWith "zip_code" (fun v => .str v.pyStr)
    else dfIn
  let df ←
    if df.cols.contains "hire_date" then convertHireDates df
    else pure df
  let df := uploaderRequiredFields.foldl cleanIdentityColStep df
  finalizeUpload nowName data_type source_name df

/-! ## `PipelineRunner` (`src/orchestration/pipeline_runner.py`)

The store, the warehouse and the three extractors are the external
collaborators of §6; the orchestrator model takes them as parameters.
Extraction, artifact download and artifact upload are total functions
(the runs the claims quantify over are the ones where these succeed; a
failure there is fatal and propagates, which no claim disputes), while the
warehouse load may fail per call, which is what claims C1 and C8 examine.
Wall-clock bookkeeping (`start_time`/`end_time`/`duration`) is outside the
embedded statistics. -/

/-- The mutable `pipeline_stats` dict (its counters and artifact list). -/
structure PipelineStats where
  sources_processed : Nat := 0
  total_raw_records : Nat := 0
  total_valid_records : Nat := 0
  total_errors : Nat := 0
  files_uploaded : List String := []
  deriving DecidableEq, Repr

/-- The external collaborators wired into `PipelineRunner.__init__`. -/
structure Collaborators where
  extractFaker : DataFrame
  extractApi : DataFrame
  extractCsv : DataFrame
  uploadRaw : String → DataFrame → String
  download : String → DataFrame
  uploadProcessed : String → DataFrame → String
  bqLoad : String → String → Except PyErr String
  hashHex : String → String
  nowTs : Nat

/-- `PipelineRunner._extract_data`: pull the three fixed sources and
record `sources_processed` and `total_raw_records`. -/
def extract_data (C : Collaborators) (st : PipelineStats) :
    PipelineStats × List (String × DataFrame) :=
  let dataframes := [("faker", C.extractFaker), ("api", C.extractApi),
                     ("csv", C.extractCsv)]
  ({st with
      sources_processed := dataframes.length,
      total_raw_records := (dataframes.map (fun p => p.2.rows.length)).sum},
   dataframes)

/-- `PipelineRunner._upload_raw_data`: upload each source's frame and
record the `raw/` artifact names. -/
def upload_raw_data (C : Collaborators) (st : PipelineStats)
    (dataframes : List (String × DataFrame)) :
    PipelineStats × List (String × String) :=
  dataframes.foldl
    (fun acc p =>
      let filename := C.uploadRaw p.1 p.2
      ({acc.1 with files_uploaded := acc.1.files_uploaded ++ ["raw/" ++ filename]},
       acc.2 ++ [(p.1, filename)]))
    (st, [])

/-- Modelled from the spec: `DataValidator.get_validation_summary` is
called by `_process_data` and `_get_pipeline_summary` but is absent from
the source tree; §4.1 says the validator "accumulates a best-effort
validation-error log usable for a run-level summary". The log is modelled
as the concatenated issue lists of the run's `validate_dataframe` calls
and the summary's `total_errors` as the log's length. -/
structure ValidationSummary where
  total_errors : Nat
  deriving DecidableEq, Repr

/-- Modelled from the spec: the run-level summary over the accumulated
validation-error log (see `ValidationSummary`). -/
def get_validation_summary (log : List String) : ValidationSummary :=
  ⟨log.length⟩

/-- The loop body of `PipelineRunner._process_data` over the raw-artifact
map: download each source's raw frame, validate it, replace an invalid
batch by the empty frame, and for a nonempty validated batch mask it,
upload the `processed/` artifact and add its row count to
`total_valid_records`. Threads the statistics, the processed-artifact
map, and the validator's error log. -/
def process_loop (C : Collaborators) :
    List (String × String) → PipelineStats → List (String × String) →
    List String → PipelineStats × List (String × String) × List String
  | [], st, acc, log => (st, acc, log)
  | (source_name, filename) :: rest, st, acc, log =>
    let df_raw := C.download filename
    let v := validate_dataframe df_raw
    let log := log ++ v.2
    let df_validated := if v.1 then df_raw else DataFrame.mk [] []
    if !df_validated.empty then
      let df_masked := mask_sensitive_data C.hashHex defaultSalt C.nowTs df_validated
      let processed_filename := C.uploadProcessed source_name df_masked
      process_loop C rest
        {st with
          total_valid_records := st.total_valid_records + df_masked.rows.length,
          files_uploaded := st.files_uploaded ++ ["processed/" ++ processed_filename]}
        (acc ++ [(source_name, processed_filename)]) log
    else process_loop C rest st acc log

/-- `PipelineRunner._process_data`: run the loop, then fold the validation
summary's error count into the statistics and return the processed-artifact
map. -/
def process_data (C : Collaborators) (st : PipelineStats)
    (raw_files : List (String × String)) :
    PipelineStats × List (String × String) :=
  let r := process_loop C raw_files st [] []
  let summary := get_validation_summary r.2.2
  ({r.1 with total_errors := summary.total_errors}, r.2.1)

/-- `PipelineRunner._load_to_bigquery`: submit one load job per processed
artifact inside a single `try`; the first failing load's exception
propagates immediately, so the remaining sources are never attempted. -/
def load_to_bigquery (C : Collaborators) :
    List (String × String) → Except PyErr (List String)
  | [] => .ok []
  | (source_name, filename) :: rest => do
    let jobId ← C.bqLoad filename source_name
    let jobs ← load_to_bigquery C rest
    pure (jobId :: jobs)

/-- `PipelineRunner.run_full_pipeline`: settings check, extraction, raw
persistence, processing, warehouse load, summary. An uncaught exception
from any step is logged and re-raised. -/
def run_full_pipeline (env : Env) (C : Collaborators) :
    Except PyErr (PipelineStats × List (String × String)) := do
  validate_settings env
  let st : PipelineStats := {}
  let (st, dataframes) := extract_data C st
  let (st, raw_files) := upload_raw_data C st dataframes
  let (st, processed_files) := process_data C st raw_files
  let _jobs ← load_to_bigquery C processed_files
  pure (st, processed_files)

/-! ## Derived descriptions of the processing loop -/

/-- Is `Except` a success? -/
def isOkE {α : Type} : Except PyErr α → Bool
  | .ok _ => true
  | .error _ => false

/-- Does the source's downloaded raw batch pass validation? -/
def sourceValid (C : Collaborators) (f : String × String) : Bool :=
  (validate_dataframe (C.download f.2)).1

/-- The masked frame the loop builds for a source. -/
def maskedDf (C : Collaborators) (f : String × String) : DataFrame :=
  mask_sensitive_data C.hashHex defaultSalt C.nowTs (C.download f.2)

/-- The processed-artifact map `_process_data` returns: one entry per
source whose batch validated. -/
def processedOf (C : Collaborators) (files : List (String × String)) :
    List (String × String) :=
  (files.filter (sourceValid C)).map
    (fun f => (f.1, C.uploadProcessed f.1 (maskedDf C f)))

/-- The `processed/` names appended to `files_uploaded` by the loop. -/
def processedNames (C : Collaborators) (files : List (String × String)) :
    List String :=
  (files.filter (sourceValid C)).map
    (fun f => "processed/" ++ C.uploadProcessed f.1 (maskedDf C f))

/-- The row counts added to `total_valid_records` by the loop. -/
def totalValidOf (C : Collaborators) (files : List (String × String)) : Nat :=
  ((files.filter (sourceValid C)).map
    (fun f => (maskedDf C f).rows.length)).sum

/-- The validation issues the loop appends to the validator's log. -/
def logOf (C : Collaborators) (files : List (String × String)) : List String :=
  files.flatMap (fun f => (validate_dataframe (C.download f.2)).2)

/-! ## Concrete fixtures -/

/-- The schema-valid record of the repository's own
`tests/test_data_validator.py` fixture: the eight required fields, no
optional columns. -/
def testFixtureRow : List (String × PyValue) :=
  [("employee_id", .str "EMP001"),
   ("first_name", .str "John"),
   ("last_name", .str "Doe"),
   ("email", .str "john.doe@example.com"),
   ("department", .str "Engineering"),
   ("position", .str "Developer"),
   ("hire_date", .str "2020-01-01"),
   ("data_source", .str "test")]

/-- The one-row frame over the fixture record. -/
def testFixtureDf : DataFrame :=
  ⟨testFixtureRow.map (fun p => p.1), [testFixtureRow]⟩

/-- A record over all seventeen model columns: the eight required values
are parameters, the optional fields hold their `None` defaults. -/
def mkEmployeeRow (eid fn ln em dep pos hd ds : String) :
    List (String × PyValue) :=
  [("employee_id", .str eid),
   ("first_name", .str fn),
   ("last_name", .str ln),
   ("email", .str em),
   ("department", .str dep),
   ("position", .str pos),
   ("hire_date", .str hd),
   ("data_source", .str ds),
   ("phone", .null),
   ("ssn", .null),
   ("salary", .null),
   ("street_address", .null),
   ("city", .null),
   ("state", .null),
   ("zip_code", .null),
   ("manager_id", .null),
   ("performance_rating", .null)]

/-- One-row frame over all seventeen columns. -/
def mkEmployeeDf (eid fn ln em dep pos hd ds : String) : DataFrame :=
  ⟨modelFieldNames, [mkEmployeeRow eid fn ln em dep pos hd ds]⟩

/-- A batch with every optional column but no `employee_id` column. -/
def noEmployeeIdRow : List (String × PyValue) :=
  (mkEmployeeRow "EMP001" "John" "Doe" "john.doe@example.com" "Engineering"
    "Developer" "2020-01-15" "test").filter (fun p => p.1 != "employee_id")

/-- The one-row frame missing the `employee_id` column. -/
def noEmployeeIdDf : DataFrame :=
  ⟨modelFieldNames.filter (fun c => c != "employee_id"), [noEmployeeIdRow]⟩

/-- A one-row frame whose `email` identity field is null: the uploader's
cleanup drops its only row. -/
def blankIdentityDf : DataFrame :=
  ⟨["employee_id", "first_name", "last_name", "email"],
   [[("employee_id", .str "EMP001"),
     ("first_name", .str "John"),
     ("last_name", .str "Doe"),
     ("email", .null)]]⟩

/-- An invalid batch: a one-character `last_name`. -/
def invalidBatchDf : DataFrame :=
  mkEmployeeDf "EMP002" "Jane" "X" "jane@example.com" "HR" "Manager"
    "2021-03-01" "test"

/-- A valid batch over all seventeen columns. -/
def validBatchDf : DataFrame :=
  mkEmployeeDf "EMP001" "John" "Doe" "john.doe@example.com" "Engineering"
    "Developer" "2020-01-15" "test"

/-- A concrete hex-digest stand-in for the witnesses. -/
def hexStub (s : String) : String := "0123456789abcdef" ++ s

/-- Collaborators whose warehouse load fails exactly on artifact `f1`. -/
def failingLoadCollab : Collaborators where
  extractFaker := ⟨[], []⟩
  extractApi := ⟨[], []⟩
  extractCsv := ⟨[], []⟩
  uploadRaw := fun s _ => s ++ "_raw.parquet"
  download := fun _ => ⟨[], []⟩
  uploadProcessed := fun s _ => s ++ "_proc.parquet"
  bqLoad := fun filename _ =>
    if filename == "f1" then .error (.valueError "load failed")
    else .ok ("job_" ++ filename)
  hashHex := hexStub
  nowTs := 0

/-- Collaborators for the skipped-invalid-source run: artifact `fb`
downloads an invalid batch, artifact `fg` a valid one, and every
warehouse load succeeds. -/
def skipRunCollab : Collaborators where
  extractFaker := ⟨[], []⟩
  extractApi := ⟨[], []⟩
  extractCsv := ⟨[], []⟩
  uploadRaw := fun s _ => s ++ "_raw.parquet"
  download := fun f => if f == "fb" then invalidBatchDf else validBatchDf
  uploadProcessed := fun s _ => s ++ "_proc.parquet"
  bqLoad := fun filename _ => .ok ("job_" ++ filename)
  hashHex := hexStub
  nowTs := 7

/-- The raw-artifact map of the skipped-invalid-source run. -/
def skipRunFiles : List (String × String) := [("bad", "fb"), ("good", "fg")]

/-- A future well-formed hire date in an otherwise fully valid batch. -/
def futureHireDf : DataFrame :=
  mkEmployeeDf "EMP003" "Alice" "Smith" "alice@example.com" "IT" "Analyst"
    "2030-01-01" "test"

/-- The run date against which "the current time" of the claims is read. -/
def todayDate : Date := ⟨2026, 10, 12⟩

/-! ## Theorems settling the claims -/

/-! ### Helper lemmas on row/column updates -/

theorem find?_mapSet_ne (r : List (String × PyValue)) (c f : String)
    (v : PyValue) (h : f ≠ c) :
    (r.map (fun p => if p.1 == c then (c, v) else p)).find?
        (fun p => p.1 == f) =
      r.find? (fun p => p.1 == f) := by
  induction r with
  | nil => rfl
  | cons p r ih =>
    rw [List.map_cons]
    by_cases hc : p.1 = c
    · have hhead : (if (p.1 == c) then (c, v) else p) = (c, v) := by simp [hc]
      rw [hhead, List.find?_cons_of_neg, List.find?_cons_of_neg]
      · exact ih
      · simp [hc, Ne.symm h]
      · simp [Ne.symm h]
    · have hhead : (if (p.1 == c) then (c, v) else p) = p := by simp [hc]
      rw [hhead]
      by_cases hpf : p.1 = f
      · rw [List.find?_cons_of_pos, List.find?_cons_of_pos] <;> simp [hpf]
      · rw [List.find?_cons_of_neg, List.find?_cons_of_neg]
        · exact ih
        · simp [hpf]
        · simp [hpf]

theorem find?_appendKey_ne (r : List (String × PyValue)) (c f : String)
    (v : PyValue) (h : f ≠ c) :
    (r ++ [(c, v)]).find? (fun p => p.1 == f) =
      r.find? (fun p => p.1 == f) := by
  induction r with
  | nil =>
    rw [List.nil_append, List.find?_cons_of_neg _ (by simp [Ne.symm h])]
  | cons p r ih =>
    rw [List.cons_append]
    by_cases hpf : p.1 = f
    · rw [List.find?_cons_of_pos, List.find?_cons_of_pos] <;> simp [hpf]
    · rw [List.find?_cons_of_neg, List.find?_cons_of_neg]
      · exact ih
      · simp [hpf]
      · simp [hpf]

theorem lookupField_setRowVal_ne (r : List (String × PyValue)) (c f : String)
    (v : PyValue) (h : f ≠ c) :
    lookupField (setRowVal r c v) f = lookupField r f := by
  unfold setRowVal lookupField
  split
  · rw [find?_mapSet_ne r c f v h]
  · rw [find?_appendKey_ne r c f v h]

theorem col_setColWith_ne (df : DataFrame) (c f : String)
    (g : PyValue → PyValue) (h : f ≠ c) :
    (df.setColWith c g).col f = df.col f := by
  unfold DataFrame.setColWith DataFrame.col
  simp only [List.map_map]
  apply List.map_congr_left
  intro r _
  simp only [Function.comp_apply]
  rw [lookupField_setRowVal_ne _ _ _ _ h]

theorem self_mem_cols_setColWith (df : DataFrame) (c : String)
    (g : PyValue → PyValue) : c ∈ (df.setColWith c g).cols := by
  unfold DataFrame.setColWith
  by_cases h : c ∈ df.cols
  · simp [h]
  · simp [h]

theorem mem_cols_setColWith (df : DataFrame) (c a : String)
    (g : PyValue → PyValue) (h : a ∈ df.cols) :
    a ∈ (df.setColWith c g).cols := by
  unfold DataFrame.setColWith
  split <;> simp [h]

/-- C2: for every environment and every set of collaborators,
`Settings.validate_settings` raises `AttributeError` on `GCS_BUCKET_RAW`
(an attribute the `Settings` class never defines) instead of returning or
raising the documented missing-settings `ValueError`; and since
`run_full_pipeline` calls it first, every invocation raises with that same
error before any source is extracted — the outcome is independent of the
extractors and of every other collaborator. -/
theorem validate_settings_raises_attribute_error (env : Env) (C : Collaborators) :
    validate_settings env = .error (.attributeError "GCS_BUCKET_RAW") ∧
    run_full_pipeline env C = .error (.attributeError "GCS_BUCKET_RAW") :=
  ⟨rfl, rfl⟩

/-- C3 (code bug): the repository's own unit-test fixture — a record
satisfying every field spec, over exactly the eight required columns, with
no duplicate ids — is schema-valid, yet `validate_dataframe` rejects it:
the `required_fields` comprehension in `DataValidator.__init__` is
inverted and collects the nine *optional* fields, so their absence trips
the missing-columns short-circuit. -/
theorem valid_batch_rejected_missing_optional_columns :
    model_validate testFixtureRow = [] ∧
    dupCount (testFixtureDf.col "employee_id") = 0 ∧
    validate_dataframe testFixtureDf =
      (false, ["Colunas obrigatorias faltando: " ++ pyListRepr
        ["phone", "ssn", "salary", "street_address", "city", "state",
         "zip_code", "manager_id", "performance_rating"]]) := by
  refine ⟨by decide, by decide, by decide⟩

/-- C4 (code bug): a batch missing the required `employee_id` column (but
carrying every optional column) does *not* short-circuit — the inverted
`required_fields` list contains no required column, so per-record
validation runs and `issues[0]` is a per-row pydantic error, not the
single missing-columns issue the claim (and the repository's own test)
expects. -/
theorem missing_required_column_runs_per_record_validation :
    validate_dataframe noEmployeeIdDf =
      (false, ["Linha 1: employee_id: Field required"]) := by
  decide

/-- C6 counterexample: a record whose `hire_date` is the well-formed date
2030-01-01, strictly after the run date, passes validation with no issue
at all — `validate_hire_date` only checks that `pd.to_datetime` accepts
the string. -/
theorem future_hire_date_accepted_cex :
    Date.lt todayDate ⟨2030, 1, 1⟩ = true ∧
    parseDate "2030-01-01" = some ⟨2030, 1, 1⟩ ∧
    validate_dataframe futureHireDf = (true, []) := by
  refine ⟨by decide, by decide, by decide⟩

/-- C7 counterexample: a record whose `last_name` is the one-character
string `X` (every other field satisfying its spec) is rejected —
`EmployeeModel` declares `last_name` with `min_length=2`, not the spec's
lower bound of 1. -/
theorem one_char_last_name_rejected_cex :
    validate_dataframe invalidBatchDf =
      (false, ["Linha 1: last_name: String should have at least 2 characters"]) := by
  decide

/-- C8 counterexample: with two processed artifacts where the first load
fails and the second would succeed, `_load_to_bigquery` propagates the
first failure and never attempts the second — failures are not collected
and the loop does not proceed to the next source. -/
theorem bigquery_load_failure_aborts_cex :
    load_to_bigquery failingLoadCollab [("a", "f1"), ("b", "f2")] =
      .error (.valueError "load failed") ∧
    failingLoadCollab.bqLoad "f2" "b" = .ok "job_f2" :=
  ⟨rfl, rfl⟩

/-- C9 counterexample: a one-row batch whose `email` is null loses its
only row to the identity cleanup, and `upload_data` then persists the
empty artifact and returns its filename instead of raising — the
null-check assertion is vacuous on zero rows. -/
theorem upload_data_empty_result_persists_cex :
    blankIdentityDf.rows.length = 1 ∧
    upload_data "20251012_000000" blankIdentityDf "processed" "faker" =
      .ok ("processed/faker_20251012_000000.parquet",
        ⟨["employee_id", "first_name", "last_name", "email"], []⟩) := by
  refine ⟨by decide, by decide⟩

/-- C5: masking is deterministic on the sensitive fields — two runs of
`mask_sensitive_data` over the same unmasked batch (even at different wall
clocks, the only run-dependent input) produce identical columns for every
sensitive field, and the tokenization of a non-null, non-empty value is a
function of the salt, the field name and the value's string form alone. -/
theorem mask_tokens_deterministic (hashHex : String → String) (salt : String)
    (t1 t2 : Nat) (df : DataFrame) (fname : String)
    (hf : fname ∈ ["ssn", "salary", "email", "phone", "street_address"]) :
    (mask_sensitive_data hashHex salt t1 df).col fname =
      (mask_sensitive_data hashHex salt t2 df).col fname ∧
    (∀ v w : PyValue, v.isna = false → v.isEmptyStr = false →
      w.isna = false → w.isEmptyStr = false → v.pyStr = w.pyStr →
      ∀ g : String,
        tokenize_field hashHex salt v g = tokenize_field hashHex salt w g) := by
  constructor
  · have hm : fname ≠ "masked_at" ∧ fname ≠ "is_masked" := by
      simp only [List.mem_cons, List.not_mem_nil, or_false] at hf
      rcases hf with rfl | rfl | rfl | rfl | rfl <;> exact ⟨by decide, by decide⟩
    unfold mask_sensitive_data
    by_cases he : df.empty
    · simp [he]
    · simp only [he, Bool.false_eq_true, if_false]
      unfold DataFrame.setColScalar
      rw [col_setColWith_ne _ _ _ _ hm.2, col_setColWith_ne _ _ _ _ hm.1,
          col_setColWith_ne _ _ _ _ hm.2, col_setColWith_ne _ _ _ _ hm.1]
  · intro v w hv1 hv2 hw1 hw2 hs g
    unfold tokenize_field
    simp [hv1, hv2, hw1, hw2, hs]

/-- Witness for C5 at concrete inputs: the sensitive `ssn` column agrees
across two maskings at different timestamps, and an integer 5 and the
string `5` tokenize identically under any field name. -/
theorem mask_tokens_deterministic_witness :
    (mask_sensitive_data hexStub defaultSalt 0 validBatchDf).col "ssn" =
      (mask_sensitive_data hexStub defaultSalt 1 validBatchDf).col "ssn" ∧
    tokenize_field hexStub defaultSalt (.int 5) "x" =
      tokenize_field hexStub defaultSalt (.str "5") "x" := by
  refine ⟨?_, ?_⟩
  · exact (mask_tokens_deterministic hexStub defaultSalt 0 1 validBatchDf
      "ssn" (by decide)).1
  · exact (mask_tokens_deterministic hexStub defaultSalt 0 1 validBatchDf
      "ssn" (by decide)).2 (.int 5) (.str "5") (by decide) (by decide)
      (by decide) (by decide) (by decide) "x"

/-- C10: on the empty batch `mask_sensitive_data` returns its input
unchanged — no copy, no `masked_at`/`is_masked` columns — while every
non-empty batch comes back with both provenance columns, so the masked
shapes of empty and non-empty inputs differ. -/
theorem mask_empty_frame_identity (hashHex : String → String) (salt : String)
    (now : Nat) (df : DataFrame) :
    (df.empty = true → mask_sensitive_data hashHex salt now df = df) ∧
    (df.empty = false →
      "masked_at" ∈ (mask_sensitive_data hashHex salt now df).cols ∧
      "is_masked" ∈ (mask_sensitive_data hashHex salt now df).cols) := by
  constructor
  · intro h
    unfold mask_sensitive_data
    simp [h]
  · intro h
    unfold mask_sensitive_data
    simp only [h, Bool.false_eq_true, if_false]
    unfold DataFrame.setColScalar
    constructor
    · exact mem_cols_setColWith _ _ _ _ (self_mem_cols_setColWith _ _ _)
    · exact self_mem_cols_setColWith _ _ _

/-- Witness for C10: a concrete empty frame passes through unchanged and
a concrete one-row frame gains both provenance columns. -/
theorem mask_empty_frame_identity_witness :
    mask_sensitive_data hexStub defaultSalt 0 (DataFrame.mk ["email"] []) =
      DataFrame.mk ["email"] [] ∧
    ("masked_at" ∈ (mask_sensitive_data hexStub defaultSalt 0 validBatchDf).cols ∧
     "is_masked" ∈ (mask_sensitive_data hexStub defaultSalt 0 validBatchDf).cols) :=
  ⟨(mask_empty_frame_identity hexStub defaultSalt 0 _).1 (by decide),
   (mask_empty_frame_identity hexStub defaultSalt 0 _).2 (by decide)⟩

/-- Any one-row batch over all seventeen columns whose required fields
meet their declared constraints validates cleanly: the shared workhorse
behind the per-field acceptance theorems. -/
theorem employeeDf_valid_of_specs (eid fn ln em dep pos hd ds : String)
    (h1 : 6 ≤ eid.length) (h2 : eid.length ≤ 10)
    (h3 : 2 ≤ fn.length) (h4 : fn.length ≤ 50)
    (h5 : 2 ≤ ln.length) (h6 : ln.length ≤ 50)
    (h7 : emailFormatOk em = true)
    (h8 : (parseDate hd).isSome = true) :
    validate_dataframe (mkEmployeeDf eid fn ln em dep pos hd ds) = (true, []) := by
  have he1 : ¬ (eid.length < 6) := by omega
  have he2 : ¬ (10 < eid.length) := by omega
  have hf1 : ¬ (fn.length < 2) := by omega
  have hf2 : ¬ (50 < fn.length) := by omega
  have hl1 : ¬ (ln.length < 2) := by omega
  have hl2 : ¬ (50 < ln.length) := by omega
  obtain ⟨d, hdd⟩ := Option.isSome_iff_exists.mp h8
  simp [validate_dataframe, DataFrame.empty, mkEmployeeDf, mkEmployeeRow,
        modelFieldNames, modelFields, DataValidator.required_fields,
        model_validate, checkField, lookupField, checkStrLen, checkEmail,
        checkHireDate, checkStr, checkOptStr, checkSalary, renderErrors,
        DataFrame.col, dupCount, dupCount.go, List.enum,
        he1, he2, hf1, hf2, hl1, hl2, h7, hdd]

/-- C6 (amended): the hire-date check is a parseability check only — any
record whose `hire_date` parses as a well-formed date passes validation
with no hire-date issue, regardless of how that date compares to the
current time (`validate_hire_date` never consults the clock). -/
theorem hire_date_check_parse_only (s : String) (d : Date)
    (h : parseDate s = some d) :
    checkHireDate (.str s) = [] ∧
    validate_dataframe (mkEmployeeDf "EMP001" "John" "Doe"
      "john.doe@example.com" "Engineering" "Developer" s "test") =
      (true, []) := by
  constructor
  · simp [checkHireDate, h]
  · exact employeeDf_valid_of_specs _ _ _ _ _ _ _ _
      (by decide) (by decide) (by decide) (by decide) (by decide) (by decide)
      (by decide) (by simp [h])

/-- Witness for C6 at a concrete future date. -/
theorem hire_date_check_parse_only_witness :
    parseDate "2031-12-31" = some ⟨2031, 12, 31⟩ ∧
    (checkHireDate (.str "2031-12-31") = [] ∧
     validate_dataframe (mkEmployeeDf "EMP001" "John" "Doe"
       "john.doe@example.com" "Engineering" "Developer" "2031-12-31" "test") =
       (true, [])) :=
  ⟨by decide, hire_date_check_parse_only "2031-12-31" ⟨2031, 12, 31⟩ (by decide)⟩

/-- C7 (amended): `last_name` is constrained to 2–50 characters — every
record whose `last_name` length lies in that range (the other fields
meeting their specs) passes validation; a one-character `last_name` is a
violation (see the counterexample). -/
theorem last_name_two_to_fifty_accepted (ln : String)
    (h1 : 2 ≤ ln.length) (h2 : ln.length ≤ 50) :
    validate_dataframe (mkEmployeeDf "EMP001" "John" ln
      "john.doe@example.com" "Engineering" "Developer" "2020-01-15" "test") =
      (true, []) :=
  employeeDf_valid_of_specs _ _ _ _ _ _ _ _
    (by decide) (by decide) (by decide) (by decide) h1 h2
    (by decide) (by decide)

/-- Witness for C7 at the two-character lower bound. -/
theorem last_name_two_to_fifty_accepted_witness :
    2 ≤ ("Do" : String).length ∧ ("Do" : String).length ≤ 50 ∧
    validate_dataframe (mkEmployeeDf "EMP001" "John" "Do"
      "john.doe@example.com" "Engineering" "Developer" "2020-01-15" "test") =
      (true, []) :=
  ⟨by decide, by decide,
   last_name_two_to_fifty_accepted "Do" (by decide) (by decide)⟩

/-- C8 (amended): a warehouse-load failure for one source stops the loads
of every subsequent source — the exception escapes `_load_to_bigquery`
immediately, whatever artifacts remain in the map, and the run fails with
that error rather than reporting a collected per-source status. -/
theorem bigquery_load_failure_propagates (C : Collaborators)
    (s f : String) (rest : List (String × String)) (e : PyErr)
    (h : C.bqLoad f s = .error e) :
    load_to_bigquery C ((s, f) :: rest) = .error e := by
  unfold load_to_bigquery
  rw [h]
  rfl

/-- Witness for C8: the failing-load collaborators abort on the first
artifact no matter what follows. -/
theorem bigquery_load_failure_propagates_witness :
    failingLoadCollab.bqLoad "f1" "a" = .error (.valueError "load failed") ∧
    load_to_bigquery failingLoadCollab [("a", "f1"), ("b", "f2")] =
      .error (.valueError "load failed") :=
  ⟨by decide,
   bigquery_load_failure_propagates failingLoadCollab "a" "f1"
     [("b", "f2")] (.valueError "load failed") (by decide)⟩

/-! ### Lemmas about the uploader's identity-column cleanup -/

theorem find?_mapSet_self (r : List (String × PyValue)) (c : String)
    (v : PyValue) :
    r.any (fun p => p.1 == c) = true →
    (r.map (fun p => if p.1 == c then (c, v) else p)).find?
        (fun p => p.1 == c) = some (c, v) := by
  induction r with
  | nil => intro h; simp at h
  | cons p r ih =>
    intro h
    rw [List.map_cons]
    by_cases hc : p.1 = c
    · rw [if_pos (by simpa using hc), List.find?_cons_of_pos _ (by simp)]
    · rw [if_neg (by simpa using hc),
          List.find?_cons_of_neg _ (by simpa using hc)]
      apply ih
      simpa [List.any_cons, (show (p.1 == c) = false by simpa using hc)] using h

theorem find?_appendKey_self (r : List (String × PyValue)) (c : String)
    (v : PyValue) :
    (r ++ [(c, v)]).find? (fun p => p.1 == c) =
      (r.find? (fun p => p.1 == c)).orElse (fun _ => some (c, v)) := by
  induction r with
  | nil =>
    rw [List.nil_append, List.find?_cons_of_pos _ (by simp)]
    rfl
  | cons p r ih =>
    rw [List.cons_append]
    by_cases hpf : p.1 = c
    · rw [List.find?_cons_of_pos _ (by simpa using hpf),
          List.find?_cons_of_pos _ (by simpa using hpf)]
      rfl
    · rw [List.find?_cons_of_neg _ (by simpa using hpf),
          List.find?_cons_of_neg _ (by simpa using hpf)]
      exact ih

theorem lookupField_setRowVal_self (r : List (String × PyValue)) (c : String)
    (v : PyValue) :
    lookupField (setRowVal r c v) c = some v := by
  unfold setRowVal lookupField
  split
  · rename_i h
    rw [find?_mapSet_self r c v h]
    rfl
  · rename_i h
    rw [find?_appendKey_self r c v]
    have hn : r.find? (fun p => p.1 == c) = none := by
      rw [List.find?_eq_none]
      intro p hp hc
      exact h (List.any_eq_true.mpr ⟨p, hp, hc⟩)
    rw [hn]
    rfl

/-- The predicate the persisted rows must satisfy at an identity column. -/
def rowHasNonEmptyStr (c : String) (r : List (String × PyValue)) : Prop :=
  ∃ s : String, lookupField r c = some (.str s) ∧ s ≠ ""

theorem cleanIdentityColStep_cols (acc : DataFrame) (c : String) :
    (cleanIdentityColStep acc c).cols = acc.cols := by
  unfold cleanIdentityColStep DataFrame.setColWith
  split
  · rename_i h
    simp [List.elem_eq_true_of_mem, h]
  · rfl

theorem cleanIdentityColStep_establishes (acc : DataFrame) (c : String)
    (hc : acc.cols.contains c = true) :
    ∀ r ∈ (cleanIdentityColStep acc c).rows, rowHasNonEmptyStr c r := by
  intro r hr
  unfold cleanIdentityColStep at hr
  rw [if_pos hc] at hr
  simp only [DataFrame.setColWith, List.mem_filter] at hr
  obtain ⟨hmem, hcond⟩ := hr
  obtain ⟨r0, _, rfl⟩ := List.mem_map.mp hmem
  refine ⟨pyStrip (fillnaStr ((lookupField r0 c).getD .null)), ?_, ?_⟩
  · exact lookupField_setRowVal_self r0 c _
  · intro hempty
    rw [lookupField_setRowVal_self r0 c _] at hcond
    simp [hempty] at hcond

theorem cleanIdentityColStep_preserves (acc : DataFrame) (c c' : String)
    (hne : c' ≠ c) (hall : ∀ r ∈ acc.rows, rowHasNonEmptyStr c' r) :
    ∀ r ∈ (cleanIdentityColStep acc c).rows, rowHasNonEmptyStr c' r := by
  intro r hr
  unfold cleanIdentityColStep at hr
  split at hr
  · simp only [DataFrame.setColWith, List.mem_filter] at hr
    obtain ⟨hmem, _⟩ := hr.imp_right (fun x => x)
    obtain ⟨r0, hr0, rfl⟩ := List.mem_map.mp hmem
    obtain ⟨s, hs, hne0⟩ := hall r0 hr0
    exact ⟨s, by rw [lookupField_setRowVal_ne _ _ _ _ hne]; exact hs, hne0⟩
  · exact hall r hr

theorem finalizeUpload_ok (nowName dt sn fn : String) (X df' : DataFrame)
    (h : finalizeUpload nowName dt sn X = .ok (fn, df')) :
    df' = X ∧ ∀ col ∈ uploaderRequiredFields, X.cols.contains col = true := by
  unfold finalizeUpload at h
  split at h
  · exact absurd h (by simp)
  · rename_i hfind
    constructor
    · by_cases hnull : nullCount X uploaderRequiredFields != 0
      · rw [if_pos hnull] at h
        exact absurd h (by simp)
      · rw [if_neg hnull] at h
        injection h with hpair
        exact (congrArg Prod.snd hpair).symm
    · intro col hcol
      have := List.find?_eq_none.mp hfind col hcol
      simpa using this

theorem cleaned_rows_nonEmptyIds (d0 : DataFrame)
    (hcols : ∀ col ∈ uploaderRequiredFields,
      (uploaderRequiredFields.foldl cleanIdentityColStep d0).cols.contains
        col = true) :
    ∀ r ∈ (uploaderRequiredFields.foldl cleanIdentityColStep d0).rows,
      ∀ c ∈ uploaderRequiredFields, rowHasNonEmptyStr c r := by
  simp only [uploaderRequiredFields, List.foldl] at hcols ⊢
  set d1 := cleanIdentityColStep d0 "employee_id" with hd1
  set d2 := cleanIdentityColStep d1 "first_name" with hd2
  set d3 := cleanIdentityColStep d2 "last_name" with hd3
  set d4 := cleanIdentityColStep d3 "email" with hd4
  have hc1 : d1.cols = d0.cols := by rw [hd1, cleanIdentityColStep_cols]
  have hc2 : d2.cols = d0.cols := by rw [hd2, cleanIdentityColStep_cols, hc1]
  have hc3 : d3.cols = d0.cols := by rw [hd3, cleanIdentityColStep_cols, hc2]
  have hc4 : d4.cols = d0.cols := by rw [hd4, cleanIdentityColStep_cols, hc3]
  have hc0 : ∀ col ∈ ["employee_id", "first_name", "last_name", "email"],
      d0.cols.contains col = true := by
    intro col hcol
    have := hcols col (by simpa using hcol)
    rwa [hc4] at this
  have p1 : ∀ r ∈ d4.rows, rowHasNonEmptyStr "employee_id" r := by
    apply cleanIdentityColStep_preserves _ _ _ (by decide)
    apply cleanIdentityColStep_preserves _ _ _ (by decide)
    apply cleanIdentityColStep_preserves _ _ _ (by decide)
    exact cleanIdentityColStep_establishes _ _ (hc0 _ (by simp))
  have p2 : ∀ r ∈ d4.rows, rowHasNonEmptyStr "first_name" r := by
    apply cleanIdentityColStep_preserves _ _ _ (by decide)
    apply cleanIdentityColStep_preserves _ _ _ (by decide)
    apply cleanIdentityColStep_establishes
    rw [hc1]; exact hc0 _ (by simp)
  have p3 : ∀ r ∈ d4.rows, rowHasNonEmptyStr "last_name" r := by
    apply cleanIdentityColStep_preserves _ _ _ (by decide)
    apply cleanIdentityColStep_establishes
    rw [hc2]; exact hc0 _ (by simp)
  have p4 : ∀ r ∈ d4.rows, rowHasNonEmptyStr "email" r := by
    apply cleanIdentityColStep_establishes
    rw [hc3]; exact hc0 _ (by simp)
  intro r hr c hc
  simp only [List.mem_cons, List.not_mem_nil, or_false] at hc
  rcases hc with rfl | rfl | rfl | rfl
  · exact p1 r hr
  · exact p2 r hr
  · exact p3 r hr
  · exact p4 r hr

/-- C9 (amended): `upload_data` does drop, before persistence, every row
whose `employee_id`, `first_name`, `last_name` or `email` is null or an
empty/whitespace string — any successfully persisted frame carries a
nonempty stripped string in each identity column of every remaining row —
but when no rows remain the write does *not* raise: it persists the empty
artifact (see the counterexample). -/
theorem upload_data_drops_blank_identity_rows (nowName : String)
    (df : DataFrame) (dt sn fn : String) (df' : DataFrame)
    (h : upload_data nowName df dt sn = .ok (fn, df')) :
    ∀ r ∈ df'.rows, ∀ c ∈ uploaderRequiredFields, rowHasNonEmptyStr c r := by
  simp only [upload_data] at h
  generalize hz : (if sn == "csv" && df.cols.contains "zip_code" then
    df.setColWith "zip_code" (fun v => .str v.pyStr) else df) = dfz at h
  by_cases hhd : dfz.cols.contains "hire_date" = true
  · rw [if_pos hhd] at h
    cases hbr : convertHireDates dfz with
    | error e =>
      rw [hbr] at h
      exact absurd h (by simp [Bind.bind, Except.bind])
    | ok d0 =>
      rw [hbr] at h
      simp only [Bind.bind, Except.bind] at h
      obtain ⟨rfl, hcols⟩ := finalizeUpload_ok _ _ _ _ _ _ h
      exact cleaned_rows_nonEmptyIds d0 hcols
  · rw [if_neg hhd] at h
    simp only [pure, Except.pure, Bind.bind, Except.bind] at h
    obtain ⟨rfl, hcols⟩ := finalizeUpload_ok _ _ _ _ _ _ h
    exact cleaned_rows_nonEmptyIds dfz hcols

/-- A concrete batch the uploader persists unchanged. -/
def okUploadDf : DataFrame :=
  ⟨["employee_id", "first_name", "last_name", "email"],
   [[("employee_id", .str "EMP001"), ("first_name", .str "John"),
     ("last_name", .str "Doe"), ("email", .str "j@d.co")]]⟩

/-- Witness for C9: a concrete successful upload whose surviving row
carries nonempty identity strings. -/
theorem upload_data_drops_blank_identity_rows_witness :
    upload_data "20251012_000000" okUploadDf "processed" "faker" =
      .ok ("processed/faker_20251012_000000.parquet", okUploadDf) ∧
    ∀ r ∈ okUploadDf.rows, ∀ c ∈ uploaderRequiredFields,
      rowHasNonEmptyStr c r :=
  ⟨by decide,
   upload_data_drops_blank_identity_rows "20251012_000000" okUploadDf
     "processed" "faker" "processed/faker_20251012_000000.parquet" okUploadDf
     (by decide)⟩

/-! ### Lemmas about the orchestrator's processing loop -/

theorem validate_true_not_empty (df : DataFrame)
    (h : (validate_dataframe df).1 = true) : df.empty = false := by
  by_cases he : df.empty = true
  · unfold validate_dataframe at h
    rw [if_pos he] at h
    simp at h
  · simpa using he

theorem process_loop_spec (C : Collaborators) (files : List (String × String))
    (st : PipelineStats) (acc : List (String × String)) (log : List String) :
    process_loop C files st acc log =
      ({st with
          total_valid_records := st.total_valid_records + totalValidOf C files,
          files_uploaded := st.files_uploaded ++ processedNames C files},
       acc ++ processedOf C files, log ++ logOf C files) := by
  induction files generalizing st acc log with
  | nil =>
    simp [process_loop, totalValidOf, processedOf, processedNames, logOf]
  | cons f rest ih =>
    obtain ⟨source_name, filename⟩ := f
    by_cases hv : (validate_dataframe (C.download filename)).1 = true
    · have hne := validate_true_not_empty _ hv
      simp only [process_loop, hv, if_true, hne, Bool.not_false, if_pos]
      rw [ih]
      simp [totalValidOf, processedOf, processedNames, logOf, sourceValid,
            maskedDf, List.filter_cons, hv, hne, List.append_assoc,
            Nat.add_assoc]
    · have hv' : (validate_dataframe (C.download filename)).1 = false := by
        simpa using hv
      have hstep : process_loop C ((source_name, filename) :: rest) st acc log =
          process_loop C rest st acc
            (log ++ (validate_dataframe (C.download filename)).2) := by
        simp [process_loop, hv', DataFrame.empty]
      rw [hstep, ih]
      simp [totalValidOf, processedOf, processedNames, logOf, sourceValid,
            maskedDf, List.filter_cons, hv', DataFrame.empty,
            List.append_assoc]

theorem load_to_bigquery_all_ok (C : Collaborators)
    (hload : ∀ f s, isOkE (C.bqLoad f s) = true) :
    ∀ files, isOkE (load_to_bigquery C files) = true := by
  intro files
  induction files with
  | nil => rfl
  | cons p rest ih =>
    obtain ⟨s, f⟩ := p
    unfold load_to_bigquery
    cases hb : C.bqLoad f s with
    | error e =>
      have := hload f s
      rw [hb] at this
      simp [isOkE] at this
    | ok j =>
      simp only [Bind.bind, Except.bind, hb]
      cases hr : load_to_bigquery C rest with
      | error e =>
        rw [hr] at ih
        simp [isOkE] at ih
      | ok jobs =>
        simp [isOkE, pure, Except.pure]

/-- C1: in a run whose extraction and raw persistence succeeded for every
source (the raw-artifact map is fully populated and downloads, masking and
processed uploads are the total external collaborators), a source `k`
whose batch fails validation is skipped: it contributes no processed
artifact and nothing to `total_valid_records`, the previously recorded
artifact names (the raw ones included) all remain in `files_uploaded`, and
`_process_data` still completes — its result is exactly the
processed-artifact map of the validating sources, each masked, persisted,
and then loaded by `_load_to_bigquery` (successfully, when the warehouse
accepts every load). -/
theorem process_data_skips_invalid_source (C : Collaborators)
    (st : PipelineStats) (raw_files : List (String × String))
    (k : String × String)
    (hmem : k ∈ raw_files)
    (hnodup : (raw_files.map Prod.fst).Nodup)
    (hinv : (validate_dataframe (C.download k.2)).1 = false)
    (hload : ∀ f s, isOkE (C.bqLoad f s) = true) :
    (process_data C st raw_files).2 = processedOf C raw_files ∧
    k.1 ∉ (process_data C st raw_files).2.map Prod.fst ∧
    sourceValid C k = false ∧
    (process_data C st raw_files).1.total_valid_records =
      st.total_valid_records + totalValidOf C raw_files ∧
    (∀ f ∈ st.files_uploaded,
      f ∈ (process_data C st raw_files).1.files_uploaded) ∧
    (∀ j ∈ raw_files, sourceValid C j = true →
      j.1 ∈ (process_data C st raw_files).2.map Prod.fst) ∧
    isOkE (load_to_bigquery C (process_data C st raw_files).2) = true := by
  have hks : sourceValid C k = false := by
    unfold sourceValid
    exact hinv
  have hpd : process_data C st raw_files =
      ({st with
          total_valid_records :=
            st.total_valid_records + totalValidOf C raw_files,
          files_uploaded := st.files_uploaded ++ processedNames C raw_files,
          total_errors := (logOf C raw_files).length},
       processedOf C raw_files) := by
    unfold process_data
    rw [process_loop_spec]
    rfl
  refine ⟨by rw [hpd], ?_, hks, by rw [hpd], ?_, ?_, ?_⟩
  · rw [hpd]
    intro hmem2
    simp only [processedOf, List.map_map] at hmem2
    obtain ⟨j, hj, hj1⟩ := List.mem_map.mp hmem2
    have hjf := List.mem_filter.mp hj
    have hjk : j = k :=
      List.inj_on_of_nodup_map hnodup hjf.1 hmem hj1
    rw [hjk] at hjf
    rw [hks] at hjf
    exact absurd hjf.2 (by simp)
  · rw [hpd]
    intro f hf
    simp only [List.mem_append]
    exact Or.inl hf
  · rw [hpd]
    intro j hj hjv
    simp only [processedOf, List.map_map]
    exact List.mem_map.mpr ⟨j, List.mem_filter.mpr ⟨hj, hjv⟩, rfl⟩
  · rw [hpd]
    exact load_to_bigquery_all_ok C hload _

/-- Witness for C1: the two-source run where artifact `fb` downloads an
invalid batch and `fg` a valid one. -/
theorem process_data_skips_invalid_source_witness :
    (("bad", "fb") : String × String) ∈ skipRunFiles ∧
    (skipRunFiles.map Prod.fst).Nodup ∧
    (validate_dataframe (skipRunCollab.download "fb")).1 = false ∧
    ((process_data skipRunCollab {} skipRunFiles).2 =
        processedOf skipRunCollab skipRunFiles ∧
      "bad" ∉ (process_data skipRunCollab {} skipRunFiles).2.map Prod.fst ∧
      sourceValid skipRunCollab ("bad", "fb") = false ∧
      (process_data skipRunCollab {} skipRunFiles).1.total_valid_records =
        (({} : PipelineStats)).total_valid_records +
          totalValidOf skipRunCollab skipRunFiles ∧
      (∀ f ∈ (({} : PipelineStats)).files_uploaded,
        f ∈ (process_data skipRunCollab {} skipRunFiles).1.files_uploaded) ∧
      (∀ j ∈ skipRunFiles, sourceValid skipRunCollab j = true →
        j.1 ∈ (process_data skipRunCollab {} skipRunFiles).2.map Prod.fst) ∧
      isOkE (load_to_bigquery skipRunCollab
        (process_data skipRunCollab {} skipRunFiles).2) = true) :=
  ⟨by decide, by decide, by decide,
   process_data_skips_invalid_source skipRunCollab {} skipRunFiles
     ("bad", "fb") (by decide) (by decide) (by decide) (fun _ _ => rfl)⟩

end ETL
